import Mathlib

/-!
Verification development for the cf-r2-sdk crate: a shallow embedding of
`src/builder.rs`, `src/error.rs`, `src/operator.rs`, `src/utils/builder.rs`
and `src/utils/operator.rs`, together with theorems about the behaviour of
the builder validation, the operator request construction, and the error
translation.

Remote interactions (the aws-sdk-s3 transport, the local file system, and
the list-objects paginator) are modelled as explicit oracles: each embedded
operation receives a function describing the outcome the collaborator would
produce for the request the code builds, and the embedding translates that
outcome exactly as the source does.  Code paths that panic in Rust
(`expect`, `unwrap`) are modelled with the `RunResult` type, whose
`panicked` constructor marks a fatal abort.
-/

/-- Model of `std::io::Error`: only its message is observed by this crate. -/
structure IoErr where
  message : String
deriving DecidableEq

/-- Model of `aws_sdk_s3::primitives::ByteStreamError`. -/
structure ByteStreamErr where
  message : String
deriving DecidableEq

/-- Model of an aws-sdk transport / service error; `message` is the text
produced by `err.to_string()`. -/
structure SdkErr where
  message : String
deriving DecidableEq

/-- `error.rs`: `OperationError`. -/
inductive OperationError where
  | FileOpenError (e : IoErr)
  | AWSSdkS3PutObjectError (msg : String)
  | AWSSdkS3GetObjectError (msg : String)
  | AWSSdkS3DeleteObjectError (msg : String)
  | AWSSdkS3ListObjectsV2Error (msg : String)
  | AWSSdkS3ByteStreamError (e : ByteStreamErr)
deriving DecidableEq

/-- `error.rs`: `BuilderError`. -/
inductive BuilderError where
  | BucketNameNotSetError
  | AccessKeyIdNotSetError
  | SecretAccessKeyNotSetError
  | EndpointNotSetError
deriving DecidableEq

/-- The `RequestChecksumCalculation` / `ResponseChecksumValidation`
enumeration of the aws-sdk-s3 config. -/
inductive ChecksumConfig where
  | whenSupported
  | whenRequired
deriving DecidableEq

/-- Model of `aws_sdk_s3::config::Credentials` (the fields this crate sets). -/
structure Credentials where
  access_key_id : String
  secret_access_key : String
deriving DecidableEq

/-- Model of the aws-sdk-s3 client config: the fields this crate's two
builder variants may set.  A field the source never sets stays `none`. -/
structure S3Config where
  credentials : Option Credentials
  region : Option String
  endpoint_url : Option String
  request_checksum_calculation : Option ChecksumConfig
  response_checksum_validation : Option ChecksumConfig
deriving DecidableEq

/-- Model of `aws_sdk_s3::Client`: `Client::from_conf(config)` keeps the
config. -/
structure S3Client where
  config : S3Config
deriving DecidableEq

/-- Outcome of running a Rust function that may panic: either a value or a
fatal abort carrying the panic message. -/
inductive RunResult (α : Type) where
  | ok (a : α)
  | panicked (msg : String)
deriving DecidableEq

/-- Whether a `RunResult` is a fatal abort. -/
def RunResult.isPanicked {α : Type} : RunResult α → Bool
  | RunResult.ok _ => false
  | RunResult.panicked _ => true

/-- Whether an `Except` is a success. -/
def isOkE {ε α : Type} : Except ε α → Bool
  | Except.ok _ => true
  | Except.error _ => false

/-- Whether an `Except` is an error. -/
def isErrorE {ε α : Type} : Except ε α → Bool
  | Except.ok _ => false
  | Except.error _ => true

/-- `operator.rs`: the `Operator` struct pairs a bucket name with the
constructed client. -/
structure Operator where
  bucket_name : String
  client : S3Client
deriving DecidableEq

/-- `Operator::new`. -/
def Operator.new (bucket_name : String) (client : S3Client) : Operator :=
  { bucket_name := bucket_name, client := client }

/-- `builder.rs`: the `Builder` struct. -/
structure Builder where
  bucket_name : Option String
  access_key_id : Option String
  secret_access_key : Option String
  endpoint : Option String
  region : String
deriving DecidableEq

/-- `impl Default for Builder`. -/
def Builder.default : Builder :=
  { bucket_name := none
  , access_key_id := none
  , secret_access_key := none
  , endpoint := none
  , region := "auto" }

/-- `Builder::new`. -/
def Builder.new : Builder := Builder.default

/-- `Builder::set_bucket_name`. -/
def Builder.set_bucket_name (b : Builder) (bucket_name : String) : Builder :=
  { b with bucket_name := some bucket_name }

/-- `Builder::set_access_key_id`. -/
def Builder.set_access_key_id (b : Builder) (access_key_id : String) : Builder :=
  { b with access_key_id := some access_key_id }

/-- `Builder::set_secret_access_key`. -/
def Builder.set_secret_access_key (b : Builder) (secret_access_key : String) : Builder :=
  { b with secret_access_key := some secret_access_key }

/-- `Builder::set_endpoint`. -/
def Builder.set_endpoint (b : Builder) (endpoint : String) : Builder :=
  { b with endpoint := some endpoint }

/-- `Builder::set_region`. -/
def Builder.set_region (b : Builder) (region : String) : Builder :=
  { b with region := region }

/-- `builder.rs`: the deprecated `Builder::create_client`.  Each
`expect(...)` is a panic when the field is `None`; the arguments of
`Credentials::new` are evaluated left to right (access key id, then secret
access key), then the config chain evaluates the endpoint, and finally
`Operator::new` evaluates the bucket name.  The config chain sets only
credentials, region and endpoint; the checksum fields are left unset. -/
def Builder.create_client (b : Builder) : RunResult Operator :=
  match b.access_key_id with
  | none => RunResult.panicked "Access key id is not set."
  | some access_key_id =>
    match b.secret_access_key with
    | none => RunResult.panicked "Secret access key is not set."
    | some secret_access_key =>
      match b.endpoint with
      | none => RunResult.panicked "Endpoint is not set."
      | some endpoint =>
        match b.bucket_name with
        | none => RunResult.panicked "Bucket name is not set."
        | some bucket_name =>
          RunResult.ok (Operator.new bucket_name
            { config :=
              { credentials := some { access_key_id := access_key_id
                                    , secret_access_key := secret_access_key }
              , region := some b.region
              , endpoint_url := some endpoint
              , request_checksum_calculation := none
              , response_checksum_validation := none } })

/-- `builder.rs`: `Builder::create_client_result`.  The four required
fields are checked in order bucket name, access key id, secret access key,
endpoint; the first missing one aborts with its `BuilderError`.  The config
chain sets credentials, region, endpoint, and both checksum options to
`WhenRequired`. -/
def Builder.create_client_result (b : Builder) : Except BuilderError Operator :=
  match b.bucket_name with
  | none => Except.error BuilderError.BucketNameNotSetError
  | some bucket_name =>
  match b.access_key_id with
  | none => Except.error BuilderError.AccessKeyIdNotSetError
  | some access_key_id =>
  match b.secret_access_key with
  | none => Except.error BuilderError.SecretAccessKeyNotSetError
  | some secret_access_key =>
  match b.endpoint with
  | none => Except.error BuilderError.EndpointNotSetError
  | some endpoint =>
    Except.ok (Operator.new bucket_name
      { config :=
        { credentials := some { access_key_id := access_key_id
                              , secret_access_key := secret_access_key }
        , region := some b.region
        , endpoint_url := some endpoint
        , request_checksum_calculation := some ChecksumConfig.whenRequired
        , response_checksum_validation := some ChecksumConfig.whenRequired } })

/-- `utils/builder.rs`: the legacy `Builder` struct (plain strings, no
options). -/
structure UBuilder where
  bucket_name : String
  access_key_id : String
  secret_access_key : String
  endpoint : String
  region : String
deriving DecidableEq

/-- `utils/builder.rs`: `impl Default for Builder`. -/
def UBuilder.default : UBuilder :=
  { bucket_name := ""
  , access_key_id := ""
  , secret_access_key := ""
  , endpoint := ""
  , region := "auto" }

/-- `utils/operator.rs`: the legacy `Operator` struct. -/
structure UOperator where
  bucket_name : String
  client : S3Client
deriving DecidableEq

/-- `utils/builder.rs`: `Builder::create_client`: total, no validation;
sets credentials, region, endpoint and both checksum options to
`WhenRequired`. -/
def UBuilder.create_client (b : UBuilder) : UOperator :=
  { bucket_name := b.bucket_name
  , client :=
    { config :=
      { credentials := some { access_key_id := b.access_key_id
                            , secret_access_key := b.secret_access_key }
      , region := some b.region
      , endpoint_url := some b.endpoint
      , request_checksum_calculation := some ChecksumConfig.whenRequired
      , response_checksum_validation := some ChecksumConfig.whenRequired } } }

/-- The fields of a `put_object` fluent request as this crate builds it.
`cache_control` is `none` when the source never calls `.cache_control(..)`
(the `utils` legacy upload paths). -/
structure PutObjectRequest where
  bucket : String
  key : String
  content_type : String
  cache_control : Option String
  body : List Nat
deriving DecidableEq

/-- The fields of a `get_object` fluent request as this crate builds it. -/
structure GetObjectRequest where
  bucket : String
  key : String
deriving DecidableEq

/-- The fields of a `delete_object` fluent request as this crate builds it. -/
structure DeleteObjectRequest where
  bucket : String
  key : String
deriving DecidableEq

/-- The fields of a `list_objects_v2` fluent request as this crate builds
it (before handing it to the paginator). -/
structure ListObjectsV2Request where
  bucket : String
  max_keys : Nat
deriving DecidableEq

/-- Model of a successful `get_object` response: the only part the crate
uses is `object.body.collect().await`, whose outcome is either the full
byte sequence or a `ByteStreamError`. -/
structure GetObjectResponse where
  body_collect : Except ByteStreamErr (List Nat)

/-- Model of one `aws_sdk_s3::types::Object` of a listing page: `key()`
returns an optional key. -/
structure S3Object where
  key : Option String
deriving DecidableEq

/-- Model of one `ListObjectsV2Output` page: its `contents()` slice. -/
structure ListObjectsV2Output where
  contents : List S3Object
deriving DecidableEq

/-- `operator.rs`, `upload_binary` / `upload_file`: the put-object request
the code builds: `.bucket(&self.bucket_name).key(file_name)
.content_type(mime_type).cache_control(cache_control.unwrap_or("no-cache"))
.body(ByteStream::from(binary.to_vec()))`. -/
def Operator.put_object_request (op : Operator) (file_name : String)
    (mime_type : String) (binary : List Nat) (cache_control : Option String) :
    PutObjectRequest :=
  { bucket := op.bucket_name
  , key := file_name
  , content_type := mime_type
  , cache_control := some (cache_control.getD "no-cache")
  , body := binary }

/-- `operator.rs`, `download`: the get-object request the code builds. -/
def Operator.get_object_request (op : Operator) (file_name : String) :
    GetObjectRequest :=
  { bucket := op.bucket_name, key := file_name }

/-- `operator.rs`, `delete`: the delete-object request the code builds. -/
def Operator.delete_object_request (op : Operator) (file_name : String) :
    DeleteObjectRequest :=
  { bucket := op.bucket_name, key := file_name }

/-- `operator.rs`, `list_objects`: the listing request the code builds:
`.bucket(&self.bucket_name).max_keys(10)`. -/
def Operator.list_objects_request (op : Operator) : ListObjectsV2Request :=
  { bucket := op.bucket_name, max_keys := 10 }

/-- `Operator::upload_binary`, parametrised by the outcome `send` the
transport produces for the request the code builds.  `Ok(_) => ()`;
`Err(err)` becomes `AWSSdkS3PutObjectError(err.to_string())`. -/
def Operator.upload_binary (op : Operator) (file_name : String)
    (mime_type : String) (binary : List Nat) (cache_control : Option String)
    (send : PutObjectRequest → Except SdkErr Unit) :
    RunResult (Except OperationError Unit) :=
  match send (op.put_object_request file_name mime_type binary cache_control) with
  | Except.ok _ => RunResult.ok (Except.ok ())
  | Except.error err =>
      RunResult.ok (Except.error (OperationError.AWSSdkS3PutObjectError err.message))

/-- `Operator::upload_file`: `File::open(file_path).await?` then
`file.read_to_end(&mut buffer).await?` — both `?` convert the io error to
`OperationError::FileOpenError` — then the same put-object request as
`upload_binary`, built from the buffered bytes.  `fsOpen` and `fsRead` are
the file-system outcomes at a given path. -/
def Operator.upload_file (op : Operator) (file_name : String)
    (mime_type : String) (file_path : String) (cache_control : Option String)
    (fsOpen : String → Except IoErr Unit)
    (fsRead : String → Except IoErr (List Nat))
    (send : PutObjectRequest → Except SdkErr Unit) :
    RunResult (Except OperationError Unit) :=
  match fsOpen file_path with
  | Except.error e => RunResult.ok (Except.error (OperationError.FileOpenError e))
  | Except.ok _ =>
  match fsRead file_path with
  | Except.error e => RunResult.ok (Except.error (OperationError.FileOpenError e))
  | Except.ok buffer =>
    match send { bucket := op.bucket_name
               , key := file_name
               , content_type := mime_type
               , cache_control := some (cache_control.getD "no-cache")
               , body := buffer } with
    | Except.ok _ => RunResult.ok (Except.ok ())
    | Except.error err =>
        RunResult.ok (Except.error (OperationError.AWSSdkS3PutObjectError err.message))

/-- `Operator::download`: a failed `get_object` call becomes
`AWSSdkS3GetObjectError(err.to_string())`; on success the body is
collected, a collect failure becomes `AWSSdkS3ByteStreamError(err)`, and a
collected body is returned as the byte vector. -/
def Operator.download (op : Operator) (file_name : String)
    (send : GetObjectRequest → Except SdkErr GetObjectResponse) :
    RunResult (Except OperationError (List Nat)) :=
  match send (op.get_object_request file_name) with
  | Except.error err =>
      RunResult.ok (Except.error (OperationError.AWSSdkS3GetObjectError err.message))
  | Except.ok object =>
    match object.body_collect with
    | Except.ok result => RunResult.ok (Except.ok result)
    | Except.error err =>
        RunResult.ok (Except.error (OperationError.AWSSdkS3ByteStreamError err))

/-- `Operator::delete`: a failed `delete_object` call becomes
`AWSSdkS3DeleteObjectError(err.to_string())`. -/
def Operator.delete (op : Operator) (file_name : String)
    (send : DeleteObjectRequest → Except SdkErr Unit) :
    RunResult (Except OperationError Unit) :=
  match send (op.delete_object_request file_name) with
  | Except.ok _ => RunResult.ok (Except.ok ())
  | Except.error err =>
      RunResult.ok (Except.error (OperationError.AWSSdkS3DeleteObjectError err.message))

/-- The `while let Some(result) = response.next().await` loop of
`Operator::list_objects`, over the sequence of page outcomes the paginator
yields: each `Ok` page appends `object.key().unwrap_or("Unknown")` for each
of its contents; the first `Err` page aborts the whole call with
`AWSSdkS3ListObjectsV2Error(err.to_string())`. -/
def list_objects_go :
    List (Except SdkErr ListObjectsV2Output) → List String →
    Except OperationError (List String)
  | [], objects => Except.ok objects
  | result :: rest, objects =>
    match result with
    | Except.ok output =>
        list_objects_go rest
          (objects ++ output.contents.map (fun o => o.key.getD "Unknown"))
    | Except.error err =>
        Except.error (OperationError.AWSSdkS3ListObjectsV2Error err.message)

/-- `Operator::list_objects`: builds the listing request (with
`max_keys(10)`), hands it to the paginator, and drains the page stream with
the loop above, starting from the empty vector. -/
def Operator.list_objects (op : Operator)
    (paginator : ListObjectsV2Request → List (Except SdkErr ListObjectsV2Output)) :
    RunResult (Except OperationError (List String)) :=
  RunResult.ok (list_objects_go (paginator op.list_objects_request) [])

/-- `utils/operator.rs`, `upload_binary`: same request as the main
`upload_binary` except no `cache_control` call; `.unwrap()` on the send
outcome panics on error. -/
def UOperator.upload_binary (op : UOperator) (file_name : String)
    (mime_type : String) (binary : List Nat)
    (send : PutObjectRequest → Except SdkErr Unit) : RunResult Unit :=
  match send { bucket := op.bucket_name
             , key := file_name
             , content_type := mime_type
             , cache_control := none
             , body := binary } with
  | Except.ok _ => RunResult.ok ()
  | Except.error err => RunResult.panicked err.message

/-- `utils/operator.rs`, `upload_file`: `expect("Failed to open file")`,
`expect("Failed to close file")`, then the same put request with
`.unwrap()` on the outcome. -/
def UOperator.upload_file (op : UOperator) (file_name : String)
    (mime_type : String) (file_path : String)
    (fsOpen : String → Except IoErr Unit)
    (fsRead : String → Except IoErr (List Nat))
    (send : PutObjectRequest → Except SdkErr Unit) : RunResult Unit :=
  match fsOpen file_path with
  | Except.error _ => RunResult.panicked "Failed to open file"
  | Except.ok _ =>
  match fsRead file_path with
  | Except.error _ => RunResult.panicked "Failed to close file"
  | Except.ok buffer =>
    match send { bucket := op.bucket_name
               , key := file_name
               , content_type := mime_type
               , cache_control := none
               , body := buffer } with
    | Except.ok _ => RunResult.ok ()
    | Except.error err => RunResult.panicked err.message

/-- `utils/operator.rs`, `download`: `.unwrap()` on the get outcome and on
the body collect. -/
def UOperator.download (op : UOperator) (file_name : String)
    (send : GetObjectRequest → Except SdkErr GetObjectResponse) :
    RunResult (List Nat) :=
  match send { bucket := op.bucket_name, key := file_name } with
  | Except.error err => RunResult.panicked err.message
  | Except.ok object =>
    match object.body_collect with
    | Except.ok result => RunResult.ok result
    | Except.error err => RunResult.panicked err.message

/-- `utils/operator.rs`, `delete`: `.unwrap()` on the delete outcome. -/
def UOperator.delete (op : UOperator) (file_name : String)
    (send : DeleteObjectRequest → Except SdkErr Unit) : RunResult Unit :=
  match send { bucket := op.bucket_name, key := file_name } with
  | Except.ok _ => RunResult.ok ()
  | Except.error err => RunResult.panicked err.message

/-- An object as stored by an ideal S3-compatible service. -/
structure StoredObject where
  body : List Nat
  content_type : String
  cache_control : Option String
deriving DecidableEq

/-- Ideal service state: an association list from key to stored object;
the most recent store for a key shadows the rest. -/
def S3State : Type := List (String × StoredObject)

/-- Look a key up in the ideal service state. -/
def s3lookup (st : S3State) (key : String) : Option StoredObject :=
  (st.find? (fun p => p.1 == key)).map Prod.snd

/-- The effect of a successful put-object request on the ideal service
state: the key now maps to the uploaded body and headers. -/
def idealPutApply (st : S3State) (req : PutObjectRequest) : S3State :=
  (req.key, { body := req.body
            , content_type := req.content_type
            , cache_control := req.cache_control }) :: st

/-- The ideal service answering a get-object request: a stored key yields
a response whose body collects to the stored bytes; a missing key is a
request-level service error. -/
def idealGet (st : S3State) (req : GetObjectRequest) :
    Except SdkErr GetObjectResponse :=
  match s3lookup st req.key with
  | some o => Except.ok { body_collect := Except.ok o.body }
  | none => Except.error { message := "NoSuchKey: The specified key does not exist." }

/-- Spec-side description of a drained listing: the pages' contents
concatenated in order, each entry contributing its key, or the literal
`"Unknown"` when the key is absent. -/
def collect_keys : List ListObjectsV2Output → List String
  | [] => []
  | page :: rest =>
      page.contents.map (fun o => o.key.getD "Unknown") ++ collect_keys rest

/-- Whether an `OperationError` is the `AWSSdkS3GetObjectError` kind. -/
def OperationError.is_get_object_error : OperationError → Bool
  | OperationError.AWSSdkS3GetObjectError _ => true
  | _ => false

/-- Whether an `OperationError` is the `AWSSdkS3ByteStreamError` kind. -/
def OperationError.is_byte_stream_error : OperationError → Bool
  | OperationError.AWSSdkS3ByteStreamError _ => true
  | _ => false

/-- A concrete operator used when evaluating the embedded operations on
closed inputs. -/
def sampleOperator : Operator :=
  Operator.new "test-bucket"
    { config :=
      { credentials := some { access_key_id := "id", secret_access_key := "secret" }
      , region := some "auto"
      , endpoint_url := some "https://example.com"
      , request_checksum_calculation := some ChecksumConfig.whenRequired
      , response_checksum_validation := some ChecksumConfig.whenRequired } }

/-! ## Theorems -/

/-- Draining a page stream in which every page succeeded appends, to the
accumulator, the pages' keys in order (with the `"Unknown"` placeholder for
key-less entries). -/
theorem list_objects_go_all_ok (pages : List ListObjectsV2Output)
    (acc : List String) :
    list_objects_go (pages.map Except.ok) acc =
      Except.ok (acc ++ collect_keys pages) := by
  induction pages generalizing acc with
  | nil => simp [list_objects_go, collect_keys]
  | cons p rest ih => simp [list_objects_go, collect_keys, ih]

/-- Draining a page stream whose first failure follows a block of
successful pages yields the listing error of that failing page. -/
theorem list_objects_go_first_error (pre : List ListObjectsV2Output)
    (e : SdkErr) (post : List (Except SdkErr ListObjectsV2Output))
    (acc : List String) :
    list_objects_go (pre.map Except.ok ++ Except.error e :: post) acc =
      Except.error (OperationError.AWSSdkS3ListObjectsV2Error e.message) := by
  induction pre generalizing acc with
  | nil => simp [list_objects_go]
  | cons p rest ih => simp [list_objects_go, ih]

/-- C1: uploading byte sequence `b` under key `k` with `upload_binary` and
then downloading `k` on the same Operator — against an ideal service state
updated by exactly that put request, with no intervening operation on `k` —
returns exactly `b`; the upload itself reports success. -/
theorem upload_binary_download_round_trip (st : S3State) (op : Operator)
    (k ct : String) (b : List Nat) (cc : Option String) :
    Operator.upload_binary op k ct b cc (fun _ => Except.ok ()) =
      RunResult.ok (Except.ok ()) ∧
    Operator.download op k
      (idealGet (idealPutApply st (Operator.put_object_request op k ct b cc))) =
      RunResult.ok (Except.ok b) := by
  refine ⟨rfl, ?_⟩
  simp [Operator.download, Operator.get_object_request, idealGet, idealPutApply,
    s3lookup, Operator.put_object_request, List.find?]

/-- C2: `list_objects` requests pages with `max_keys = 10`, and when every
page the paginator yields succeeds it returns the concatenation of all
pages in service order, each key-less entry contributing the literal
`"Unknown"` rather than being omitted or failing. -/
theorem list_objects_concatenates_pages (op : Operator)
    (pages : List ListObjectsV2Output) :
    (Operator.list_objects_request op).max_keys = 10 ∧
    Operator.list_objects op (fun _ => pages.map Except.ok) =
      RunResult.ok (Except.ok (collect_keys pages)) := by
  refine ⟨rfl, ?_⟩
  simp [Operator.list_objects, list_objects_go_all_ok]

/-- C3: `create_client_result` errors exactly when one of the four
required fields was never set; the error is that of the first missing
field in the fixed order bucket name, access key id, secret access key,
endpoint; with nothing set the bucket-name error results. -/
theorem create_client_result_first_missing_field (b : Builder) :
    ((∃ e, b.create_client_result = Except.error e) ↔
      (b.bucket_name = none ∨ b.access_key_id = none ∨
       b.secret_access_key = none ∨ b.endpoint = none)) ∧
    (b.bucket_name = none →
      b.create_client_result = Except.error BuilderError.BucketNameNotSetError) ∧
    (b.bucket_name ≠ none → b.access_key_id = none →
      b.create_client_result = Except.error BuilderError.AccessKeyIdNotSetError) ∧
    (b.bucket_name ≠ none → b.access_key_id ≠ none →
      b.secret_access_key = none →
      b.create_client_result =
        Except.error BuilderError.SecretAccessKeyNotSetError) ∧
    (b.bucket_name ≠ none → b.access_key_id ≠ none →
      b.secret_access_key ≠ none → b.endpoint = none →
      b.create_client_result = Except.error BuilderError.EndpointNotSetError) ∧
    Builder.new.create_client_result =
      Except.error BuilderError.BucketNameNotSetError := by
  obtain ⟨bn, ak, sk, ep, rg⟩ := b
  cases bn <;> cases ak <;> cases sk <;> cases ep <;>
    simp [Builder.create_client_result, Builder.new, Builder.default]

/-- Witness for C3: with no field set the bucket-name error results, and
with only the bucket name set the access-key-id error results. -/
theorem create_client_result_first_missing_field_witness :
    Builder.new.create_client_result =
      Except.error BuilderError.BucketNameNotSetError ∧
    (Builder.new.set_bucket_name "b").create_client_result =
      Except.error BuilderError.AccessKeyIdNotSetError :=
  ⟨(create_client_result_first_missing_field Builder.new).2.1 rfl,
   (create_client_result_first_missing_field
      (Builder.new.set_bucket_name "b")).2.2.1 (by simp [Builder.new,
        Builder.default, Builder.set_bucket_name]) rfl⟩

/-- C4: `download` yields `AWSSdkS3GetObjectError` carrying the transport
message exactly when the get-object call fails, `AWSSdkS3ByteStreamError`
exactly when the call succeeds but collecting the body fails, the body on
full success, and no other error kind ever. -/
theorem download_error_taxonomy (op : Operator) (fn : String)
    (send : GetObjectRequest → Except SdkErr GetObjectResponse) :
    (∀ e, send (Operator.get_object_request op fn) = Except.error e →
      Operator.download op fn send =
        RunResult.ok (Except.error
          (OperationError.AWSSdkS3GetObjectError e.message))) ∧
    (∀ o e, send (Operator.get_object_request op fn) = Except.ok o →
      o.body_collect = Except.error e →
      Operator.download op fn send =
        RunResult.ok (Except.error (OperationError.AWSSdkS3ByteStreamError e))) ∧
    (∀ o r, send (Operator.get_object_request op fn) = Except.ok o →
      o.body_collect = Except.ok r →
      Operator.download op fn send = RunResult.ok (Except.ok r)) ∧
    (∀ err, Operator.download op fn send = RunResult.ok (Except.error err) →
      err.is_get_object_error = true ∨ err.is_byte_stream_error = true) := by
  refine ⟨fun e he => by simp [Operator.download, he],
          fun o e h1 h2 => by simp [Operator.download, h1, h2],
          fun o r h1 h2 => by simp [Operator.download, h1, h2],
          fun err herr => ?_⟩
  cases hsend : send (Operator.get_object_request op fn) with
  | error e0 =>
    simp [Operator.download, hsend] at herr
    rw [← herr]
    exact Or.inl rfl
  | ok o =>
    cases hbody : o.body_collect with
    | ok r => simp [Operator.download, hsend, hbody] at herr
    | error e0 =>
      simp [Operator.download, hsend, hbody] at herr
      rw [← herr]
      exact Or.inr rfl

/-- Witness for C4: on a failing get-object call the result is the
get-object error with the transport message. -/
theorem download_error_taxonomy_witness :
    Operator.download sampleOperator "k"
      (fun _ => Except.error { message := "boom" }) =
      RunResult.ok (Except.error
        (OperationError.AWSSdkS3GetObjectError "boom")) :=
  (download_error_taxonomy sampleOperator "k"
    (fun _ => Except.error { message := "boom" })).1 { message := "boom" } rfl

/-- C5: `upload_file` buffers the whole file and then behaves exactly as
`upload_binary` on those bytes (same request, same results); a file that
cannot be opened or read yields `FileOpenError`, a kind distinct from
`AWSSdkS3PutObjectError`. -/
theorem upload_file_refines_upload_binary (op : Operator)
    (fn mt fp : String) (cc : Option String)
    (fsOpen : String → Except IoErr Unit)
    (fsRead : String → Except IoErr (List Nat))
    (send : PutObjectRequest → Except SdkErr Unit) :
    (∀ e, fsOpen fp = Except.error e →
      Operator.upload_file op fn mt fp cc fsOpen fsRead send =
        RunResult.ok (Except.error (OperationError.FileOpenError e))) ∧
    (∀ e, fsOpen fp = Except.ok () → fsRead fp = Except.error e →
      Operator.upload_file op fn mt fp cc fsOpen fsRead send =
        RunResult.ok (Except.error (OperationError.FileOpenError e))) ∧
    (∀ buffer, fsOpen fp = Except.ok () → fsRead fp = Except.ok buffer →
      Operator.upload_file op fn mt fp cc fsOpen fsRead send =
        Operator.upload_binary op fn mt buffer cc send) ∧
    (∀ e m, OperationError.FileOpenError e ≠
      OperationError.AWSSdkS3PutObjectError m) := by
  refine ⟨fun e he => by simp [Operator.upload_file, he],
          fun e h1 h2 => by simp [Operator.upload_file, h1, h2],
          fun buffer h1 h2 => by
            simp [Operator.upload_file, Operator.upload_binary,
              Operator.put_object_request, h1, h2],
          fun e m h => by cases h⟩

/-- Witness for C5: with a readable file the upload equals `upload_binary`
on the buffered bytes, and with an unreadable file the result is the
file-open error. -/
theorem upload_file_refines_upload_binary_witness :
    Operator.upload_file sampleOperator "k" "text/plain" "p" none
      (fun _ => Except.ok ()) (fun _ => Except.ok [1, 2, 3])
      (fun _ => Except.ok ()) =
      Operator.upload_binary sampleOperator "k" "text/plain" [1, 2, 3] none
        (fun _ => Except.ok ()) ∧
    Operator.upload_file sampleOperator "k" "text/plain" "p" none
      (fun _ => Except.error { message := "no such file" })
      (fun _ => Except.ok [1, 2, 3]) (fun _ => Except.ok ()) =
      RunResult.ok (Except.error
        (OperationError.FileOpenError { message := "no such file" })) :=
  ⟨(upload_file_refines_upload_binary sampleOperator "k" "text/plain" "p" none
      (fun _ => Except.ok ()) (fun _ => Except.ok [1, 2, 3])
      (fun _ => Except.ok ())).2.2.1 [1, 2, 3] rfl rfl,
   (upload_file_refines_upload_binary sampleOperator "k" "text/plain" "p" none
      (fun _ => Except.error { message := "no such file" })
      (fun _ => Except.ok [1, 2, 3])
      (fun _ => Except.ok ())).1 { message := "no such file" } rfl⟩

/-- C6: when a listing page fails after any block of successful pages,
`list_objects` returns the listing error carrying that page's transport
message and no keys at all: the keys of the earlier pages are discarded. -/
theorem list_objects_page_failure_discards (op : Operator)
    (pre : List ListObjectsV2Output) (e : SdkErr)
    (post : List (Except SdkErr ListObjectsV2Output)) :
    Operator.list_objects op
      (fun _ => pre.map Except.ok ++ Except.error e :: post) =
      RunResult.ok (Except.error
        (OperationError.AWSSdkS3ListObjectsV2Error e.message)) := by
  simp [Operator.list_objects, list_objects_go_first_error]

/-- C7 counterexample: the deprecated legacy `create_client`, run on a
fully configured builder, constructs a transport client whose checksum
options are left unset, not configured as when-required. -/
theorem legacy_create_client_checksum_counterexample :
    Builder.create_client ((((Builder.new.set_bucket_name "b").set_access_key_id
        "a").set_secret_access_key "s").set_endpoint "e") =
      RunResult.ok (Operator.new "b"
        { config :=
          { credentials := some { access_key_id := "a"
                                , secret_access_key := "s" }
          , region := some "auto"
          , endpoint_url := some "e"
          , request_checksum_calculation := none
          , response_checksum_validation := none } }) ∧
    (none : Option ChecksumConfig) ≠ some ChecksumConfig.whenRequired :=
  ⟨rfl, by simp⟩

/-- C7 (amended): `create_client_result` and the utils builder's
`create_client` configure both checksum options as when-required; the
deprecated legacy `create_client` in `builder.rs` leaves both unset. -/
theorem checksum_configuration_when_required (b : Builder) (ub : UBuilder) :
    (∀ op, b.create_client_result = Except.ok op →
      op.client.config.request_checksum_calculation =
        some ChecksumConfig.whenRequired ∧
      op.client.config.response_checksum_validation =
        some ChecksumConfig.whenRequired) ∧
    ((UBuilder.create_client ub).client.config.request_checksum_calculation =
        some ChecksumConfig.whenRequired ∧
     (UBuilder.create_client ub).client.config.response_checksum_validation =
        some ChecksumConfig.whenRequired) ∧
    (∀ op, b.create_client = RunResult.ok op →
      op.client.config.request_checksum_calculation = none ∧
      op.client.config.response_checksum_validation = none) := by
  obtain ⟨bn, ak, sk, ep, rg⟩ := b
  refine ⟨fun op hop => ?_, ⟨rfl, rfl⟩, fun op hop => ?_⟩
  · cases bn <;> cases ak <;> cases sk <;> cases ep <;>
      simp [Builder.create_client_result, Operator.new] at hop
    subst hop
    exact ⟨rfl, rfl⟩
  · cases bn <;> cases ak <;> cases sk <;> cases ep <;>
      simp [Builder.create_client, Operator.new] at hop
    subst hop
    exact ⟨rfl, rfl⟩

/-- Witness for C7 (amended): on a concrete fully configured builder the
strict variant yields a client with both checksum options when-required. -/
theorem checksum_configuration_when_required_witness :
    (Operator.new "b"
        { config :=
          { credentials := some { access_key_id := "a"
                                , secret_access_key := "s" }
          , region := some "auto"
          , endpoint_url := some "e"
          , request_checksum_calculation := some ChecksumConfig.whenRequired
          , response_checksum_validation := some ChecksumConfig.whenRequired }
      } : Operator).client.config.request_checksum_calculation =
        some ChecksumConfig.whenRequired ∧
    (Operator.new "b"
        { config :=
          { credentials := some { access_key_id := "a"
                                , secret_access_key := "s" }
          , region := some "auto"
          , endpoint_url := some "e"
          , request_checksum_calculation := some ChecksumConfig.whenRequired
          , response_checksum_validation := some ChecksumConfig.whenRequired }
      } : Operator).client.config.response_checksum_validation =
        some ChecksumConfig.whenRequired :=
  (checksum_configuration_when_required
    ((((Builder.new.set_bucket_name "b").set_access_key_id
        "a").set_secret_access_key "s").set_endpoint "e")
    UBuilder.default).1
    (Operator.new "b"
      { config :=
        { credentials := some { access_key_id := "a"
                              , secret_access_key := "s" }
        , region := some "auto"
        , endpoint_url := some "e"
        , request_checksum_calculation := some ChecksumConfig.whenRequired
        , response_checksum_validation := some ChecksumConfig.whenRequired } })
    rfl

/-- C8: the region always holds a value: a fresh builder has region
`"auto"`, `set_region` stores the given string verbatim, the other setters
leave it unchanged, and both build variants pass the current region
through to the client config unchanged. -/
theorem region_always_present (b : Builder) (s r : String) :
    Builder.new.region = "auto" ∧
    (Builder.set_region b r).region = r ∧
    (Builder.set_bucket_name b s).region = b.region ∧
    (Builder.set_access_key_id b s).region = b.region ∧
    (Builder.set_secret_access_key b s).region = b.region ∧
    (Builder.set_endpoint b s).region = b.region ∧
    (∀ op, b.create_client_result = Except.ok op →
      op.client.config.region = some b.region) ∧
    (∀ op, b.create_client = RunResult.ok op →
      op.client.config.region = some b.region) := by
  obtain ⟨bn, ak, sk, ep, rg⟩ := b
  refine ⟨rfl, rfl, rfl, rfl, rfl, rfl, fun op hop => ?_, fun op hop => ?_⟩
  · cases bn <;> cases ak <;> cases sk <;> cases ep <;>
      simp [Builder.create_client_result, Operator.new] at hop
    subst hop
    rfl
  · cases bn <;> cases ak <;> cases sk <;> cases ep <;>
      simp [Builder.create_client, Operator.new] at hop
    subst hop
    rfl

/-- Witness for C8: `set_region` stores the string verbatim and a client
built from a fully configured fresh builder carries region `"auto"`. -/
theorem region_always_present_witness :
    (Builder.new.set_region "eu-west").region = "eu-west" ∧
    (Operator.new "b"
        { config :=
          { credentials := some { access_key_id := "a"
                                , secret_access_key := "s" }
          , region := some "auto"
          , endpoint_url := some "e"
          , request_checksum_calculation := some ChecksumConfig.whenRequired
          , response_checksum_validation := some ChecksumConfig.whenRequired }
      } : Operator).client.config.region = some "auto" :=
  ⟨(region_always_present Builder.new "x" "eu-west").2.1,
   (region_always_present
      ((((Builder.new.set_bucket_name "b").set_access_key_id
          "a").set_secret_access_key "s").set_endpoint "e")
      "x" "eu-west").2.2.2.2.2.2.1
     (Operator.new "b"
       { config :=
         { credentials := some { access_key_id := "a"
                               , secret_access_key := "s" }
         , region := some "auto"
         , endpoint_url := some "e"
         , request_checksum_calculation := some ChecksumConfig.whenRequired
         , response_checksum_validation := some ChecksumConfig.whenRequired } })
     rfl⟩

/-- C9: the deprecated `create_client` panics exactly when some required
field was never set; every operation of the main `Operator` never panics,
whatever the collaborator outcomes; and the `utils` legacy operator
methods panic when their remote call fails. -/
theorem legacy_panics_only :
    (∀ b : Builder, (Builder.create_client b).isPanicked = true ↔
      (b.bucket_name = none ∨ b.access_key_id = none ∨
       b.secret_access_key = none ∨ b.endpoint = none)) ∧
    (∀ op fn mt bin cc send,
      (Operator.upload_binary op fn mt bin cc send).isPanicked = false) ∧
    (∀ op fn mt fp cc fsOpen fsRead send,
      (Operator.upload_file op fn mt fp cc fsOpen fsRead send).isPanicked =
        false) ∧
    (∀ op fn send, (Operator.download op fn send).isPanicked = false) ∧
    (∀ op fn send, (Operator.delete op fn send).isPanicked = false) ∧
    (∀ op paginator,
      (Operator.list_objects op paginator).isPanicked = false) ∧
    (∀ (op : UOperator) fn mt bin send e,
      send { bucket := op.bucket_name, key := fn, content_type := mt,
             cache_control := none, body := bin } = Except.error e →
      (UOperator.upload_binary op fn mt bin send).isPanicked = true) ∧
    (∀ (op : UOperator) fn send e,
      send { bucket := op.bucket_name, key := fn } = Except.error e →
      (UOperator.download op fn send).isPanicked = true) := by
  refine ⟨?_, ?_, ?_, ?_, ?_, ?_, ?_, ?_⟩
  · intro b
    obtain ⟨bn, ak, sk, ep, rg⟩ := b
    cases bn <;> cases ak <;> cases sk <;> cases ep <;>
      simp [Builder.create_client, RunResult.isPanicked]
  · intro op fn mt bin cc send
    cases h : send (Operator.put_object_request op fn mt bin cc) with
    | ok u => simp [Operator.upload_binary, h, RunResult.isPanicked]
    | error e => simp [Operator.upload_binary, h, RunResult.isPanicked]
  · intro op fn mt fp cc fsOpen fsRead send
    cases h1 : fsOpen fp with
    | error e => simp [Operator.upload_file, h1, RunResult.isPanicked]
    | ok u =>
      cases h2 : fsRead fp with
      | error e => simp [Operator.upload_file, h1, h2, RunResult.isPanicked]
      | ok buffer =>
        cases h3 : send ⟨op.bucket_name, fn, mt, some (cc.getD "no-cache"), buffer⟩ with
        | error e =>
            simp [Operator.upload_file, h1, h2, h3, RunResult.isPanicked]
        | ok u2 =>
            simp [Operator.upload_file, h1, h2, h3, RunResult.isPanicked]
  · intro op fn send
    cases h1 : send (Operator.get_object_request op fn) with
    | error e => simp [Operator.download, h1, RunResult.isPanicked]
    | ok o =>
      cases h2 : o.body_collect with
      | error e => simp [Operator.download, h1, h2, RunResult.isPanicked]
      | ok r => simp [Operator.download, h1, h2, RunResult.isPanicked]
  · intro op fn send
    cases h : send (Operator.delete_object_request op fn) with
    | ok u => simp [Operator.delete, h, RunResult.isPanicked]
    | error e => simp [Operator.delete, h, RunResult.isPanicked]
  · intro op paginator
    rfl
  · intro op fn mt bin send e h
    simp [UOperator.upload_binary, h, RunResult.isPanicked]
  · intro op fn send e h
    simp [UOperator.download, h, RunResult.isPanicked]

/-- Witness for C9: a fresh builder makes the legacy `create_client`
panic; a failed download on the main operator is a recoverable result, not
a panic; a failed download on the utils legacy operator panics. -/
theorem legacy_panics_only_witness :
    (Builder.create_client Builder.new).isPanicked = true ∧
    (Operator.download sampleOperator "k"
      (fun _ => Except.error { message := "x" })).isPanicked = false ∧
    (UOperator.download { bucket_name := "b", client := sampleOperator.client }
      "k" (fun _ => Except.error { message := "x" })).isPanicked = true :=
  ⟨(legacy_panics_only.1 Builder.new).mpr (Or.inl rfl),
   legacy_panics_only.2.2.2.1 sampleOperator "k"
     (fun _ => Except.error { message := "x" }),
   legacy_panics_only.2.2.2.2.2.2.2
     { bucket_name := "b", client := sampleOperator.client } "k"
     (fun _ => Except.error { message := "x" }) { message := "x" } rfl⟩

/-- C10: builder validation checks only that each required setter was
called, not the string content: after the four setters run with any
strings (the empty string included), `create_client_result` succeeds; more
generally any builder whose four required fields are set succeeds. -/
theorem builder_validation_checks_presence_only (b b2 : Builder)
    (s1 s2 s3 s4 : String) :
    isOkE (((((Builder.set_bucket_name b s1).set_access_key_id
        s2).set_secret_access_key s3).set_endpoint s4).create_client_result) =
      true ∧
    (b2.bucket_name.isSome = true → b2.access_key_id.isSome = true →
     b2.secret_access_key.isSome = true → b2.endpoint.isSome = true →
     isOkE b2.create_client_result = true) := by
  constructor
  · rfl
  · obtain ⟨bn, ak, sk, ep, rg⟩ := b2
    cases bn <;> cases ak <;> cases sk <;> cases ep <;>
      simp [Builder.create_client_result, isOkE]

/-- Witness for C10: the four setters applied to a fresh builder with
empty strings yield a successful build, and a builder with all four
fields set succeeds. -/
theorem builder_validation_checks_presence_only_witness :
    isOkE (((((Builder.new.set_bucket_name "").set_access_key_id
        "").set_secret_access_key "").set_endpoint "").create_client_result) =
      true ∧
    isOkE (Builder.mk (some "x") (some "y") (some "z") (some "w")
      "auto").create_client_result = true :=
  ⟨(builder_validation_checks_presence_only Builder.new Builder.new
      "" "" "" "").1,
   (builder_validation_checks_presence_only Builder.new
      (Builder.mk (some "x") (some "y") (some "z") (some "w") "auto")
      "" "" "" "").2 rfl rfl rfl rfl⟩


